import Mathlib

/-!
Shallow embedding of `src/Reconstruct/main.py`, a pyshark-based USB payload
extractor:

```
cap = pyshark.FileCapture('challenge.pcap', include_raw=True, use_json=True)
with open("out.raw", "wb") as f:
    for packet in cap:
        usb = packet.usb
        if usb.transfer_type == "0x00" and usb.src == "host":
            header_len = int(usb.usbpcap_header_len)
            data = packet.get_raw_packet()[header_len:]
            print(len(data))
            f.write(data)
```

A capture is modelled as the finite list of packet records the pyshark
iterator yields.  Each record carries the optional USB protocol layer
(pyshark raises `AttributeError` from `packet.usb` when the layer is absent)
and the raw frame bytes returned by `get_raw_packet()`.  The USB layer fields
are strings, exactly as pyshark exposes them; `int(...)` is modelled by
`parsePyInt` and Python's `bytes[h:]` slicing by `pySliceFrom`.  The loop is
modelled by `runAux`/`run`, which return the bytes written to `out.raw` so
far together with the Python exception, if any, that aborted the loop; the
`print` call is diagnostic stdout only and has no effect on the output file.
-/

namespace Reconstruct

/-- The USB protocol layer view of one record, as pyshark exposes it:
`usb.transfer_type`, `usb.src` and `usb.usbpcap_header_len` are all string
field values. -/
structure USBLayer where
  transfer_type : String
  src : String
  usbpcap_header_len : String
deriving DecidableEq, Repr

/-- One packet record from `pyshark.FileCapture`: the USB layer when the
packet has one (`packet.usb` raises `AttributeError` otherwise), and the raw
frame bytes from `get_raw_packet()`, each byte a `Nat` below 256 (the bound
is irrelevant to every property proved here). -/
structure Packet where
  usb : Option USBLayer
  rawPacket : List Nat
deriving DecidableEq, Repr

/-- The Python exceptions the loop body can raise: `AttributeError` from
`packet.usb` on a record without a USB layer, `ValueError` from
`int(usb.usbpcap_header_len)` on a non-numeric field. -/
inductive PyErr where
  | attributeError
  | valueError
deriving DecidableEq, Repr

/-- Digit scanner for Python's `int(str)`: consumes base-10 digits with
single underscores allowed only between digits (Python 3.6+), returning the
accumulated value; `lastWasDigit` tracks whether an underscore or the end of
input is currently legal. -/
def pyDigits : List Char → Nat → Bool → Option Nat
  | [], acc, lastWasDigit => if lastWasDigit then some acc else none
  | c :: rest, acc, lastWasDigit =>
    if c.isDigit then
      pyDigits rest (acc * 10 + (c.toNat - 48)) true
    else if c = '_' && lastWasDigit then
      pyDigits rest acc false
    else
      none

/-- Python's `int(s)` for a string argument: strip surrounding whitespace,
accept one optional sign, then a nonempty digit run (underscores between
digits allowed); any other input raises `ValueError`, modelled as `none`. -/
def parsePyInt (s : String) : Option Int :=
  let cs := ((s.toList.dropWhile Char.isWhitespace).reverse.dropWhile
    Char.isWhitespace).reverse
  match cs with
  | '+' :: rest => (pyDigits rest 0 false).map (fun n => (n : Int))
  | '-' :: rest => (pyDigits rest 0 false).map (fun n => -(n : Int))
  | rest => (pyDigits rest 0 false).map (fun n => (n : Int))

/-- Python's `b[h:]` on a byte string `b` for an arbitrary integer `h`: a
negative `h` counts from the end (`len(b) + h`, clamped below at 0), a
nonnegative `h` drops the first `h` bytes (an `h` past the end yields the
empty string).  `Int.toNat` sends negatives to 0, which is exactly Python's
lower clamp. -/
def pySliceFrom (h : Int) (b : List Nat) : List Nat :=
  b.drop (if h < 0 then ((b.length : Int) + h).toNat else h.toNat)

/-- One iteration of the loop body on `packet`: `packet.usb` raises
`AttributeError` when the USB layer is absent; otherwise the filter
`transfer_type == "0x00" and src == "host"` either skips the record (no
bytes written) or converts `usbpcap_header_len` with `int(...)` — raising
`ValueError` on failure — and produces the slice `get_raw_packet()[h:]`
to be written. -/
def processRecord (p : Packet) : Except PyErr (List Nat) :=
  match p.usb with
  | none => .error .attributeError
  | some usb =>
    if usb.transfer_type == "0x00" && usb.src == "host" then
      match parsePyInt usb.usbpcap_header_len with
      | none => .error .valueError
      | some h => .ok (pySliceFrom h p.rawPacket)
    else
      .ok []

/-- The `for packet in cap` loop: `acc` is the bytes already written to
`out.raw`.  A raised exception aborts the loop, leaving the bytes written so
far on disk (the `with` block closes the file but does not erase it); normal
exhaustion returns the full output and no exception. -/
def runAux : List Packet → List Nat → List Nat × Option PyErr
  | [], acc => (acc, none)
  | p :: rest, acc =>
    match processRecord p with
    | .error e => (acc, some e)
    | .ok payload => runAux rest (acc ++ payload)

/-- The whole script on a capture yielding `ps`: `out.raw` is opened with
mode `"wb"` (created/truncated to empty) before the loop, so its final
contents are the first component; the second component is the exception that
aborted the run, if any. -/
def run (ps : List Packet) : List Nat × Option PyErr :=
  runAux ps []

/-- The final contents of `out.raw` after running the script on `ps`
(whether or not the run aborted: an aborting exception leaves the bytes
already written in place). -/
def outputContents (ps : List Packet) : List Nat :=
  (run ps).1

/-- The filter predicate of the spec: the record exposes the USB view and
`transfer_type == "0x00" and src == "host"`. -/
def recordMatches (p : Packet) : Bool :=
  match p.usb with
  | none => false
  | some usb => usb.transfer_type == "0x00" && usb.src == "host"

/-- Following the spec's words: the payload of a record is its raw frame
bytes sliced from the parsed header length to the end, `rawFrame[headerLen:]`
(empty when the header length does not parse — the spec-side concatenation
is only ever applied where it does). -/
def specPayload (p : Packet) : List Nat :=
  match p.usb with
  | none => []
  | some usb =>
    match parsePyInt usb.usbpcap_header_len with
    | none => []
    | some h => pySliceFrom h p.rawPacket

/-- Following the spec's words: the ordered concatenation, over every record
passing the filter predicate, of that record's payload slice. -/
def specOutput (ps : List Packet) : List Nat :=
  ((ps.filter recordMatches).map specPayload).flatten

/-- A record with no USB layer at all (e.g. a non-USB packet in a
mixed-protocol capture): `packet.usb` raises `AttributeError` on it. -/
def pNoUsb : Packet :=
  { usb := none, rawPacket := [1, 2, 3] }

/-- A matching record: isochronous/interrupt transfer from the host, header
length `"0"`, so its whole 2-byte raw frame is the payload. -/
def pGood : Packet :=
  { usb := some { transfer_type := "0x00", src := "host",
                  usbpcap_header_len := "0" },
    rawPacket := [9, 9] }

/-- Record 1 of the spec's 3-record scenario: `transfer_type = "0x01"`,
skipped by the filter. -/
def pScenario1 : Packet :=
  { usb := some { transfer_type := "0x01", src := "host",
                  usbpcap_header_len := "4" },
    rawPacket := [1, 2, 3, 4, 5, 6, 7, 8] }

/-- Record 2 of the spec's 3-record scenario: matching, `headerLen = 4`,
8-byte raw frame, so the payload is the last 4 bytes. -/
def pScenario2 : Packet :=
  { usb := some { transfer_type := "0x00", src := "host",
                  usbpcap_header_len := "4" },
    rawPacket := [10, 11, 12, 13, 14, 15, 16, 17] }

/-- Record 3 of the spec's 3-record scenario: `src = "device"`, skipped by
the filter. -/
def pScenario3 : Packet :=
  { usb := some { transfer_type := "0x00", src := "device",
                  usbpcap_header_len := "4" },
    rawPacket := [20, 21, 22, 23] }

/-- A matching record whose `usbpcap_header_len` field is `"-5"` while its
raw frame has only 3 bytes: Python slices it as `raw[-5:]`, the whole
frame. -/
def pNegHeader : Packet :=
  { usb := some { transfer_type := "0x00", src := "host",
                  usbpcap_header_len := "-5" },
    rawPacket := [1, 2, 3] }

/-- A matching record whose header length (`"9"`) exceeds its 3-byte raw
frame: Python's `raw[9:]` is empty. -/
def pLongHeader : Packet :=
  { usb := some { transfer_type := "0x00", src := "host",
                  usbpcap_header_len := "9" },
    rawPacket := [1, 2, 3] }

/-- A matching record whose `usbpcap_header_len` field is not parseable by
`int(...)` (a hex-formatted value, which `int` with its default base 10
rejects). -/
def pBadHeader : Packet :=
  { usb := some { transfer_type := "0x00", src := "host",
                  usbpcap_header_len := "0x1b" },
    rawPacket := [1, 2, 3, 4] }

/-- A record whose `usbpcap_header_len` field `int(...)` accepts; false when
the USB layer is absent. -/
def headerParses (p : Packet) : Bool :=
  match p.usb with
  | none => false
  | some usb => (parsePyInt usb.usbpcap_header_len).isSome

/-- A record the loop body can process without raising an exception: the
USB layer is present, and if the record passes the filter its header-length
field parses as an integer. -/
def recordClean (p : Packet) : Bool :=
  p.usb.isSome && (!recordMatches p || headerParses p)

/-- A capture the loop processes to completion: every record is clean. -/
def cleanCapture (ps : List Packet) : Bool :=
  ps.all recordClean

theorem recordMatches_none (raw : List Nat) :
    recordMatches ⟨none, raw⟩ = false := rfl

theorem recordMatches_some (u : USBLayer) (raw : List Nat) :
    recordMatches ⟨some u, raw⟩ =
      (u.transfer_type == "0x00" && u.src == "host") := rfl

theorem headerParses_some (u : USBLayer) (raw : List Nat) :
    headerParses ⟨some u, raw⟩ =
      (parsePyInt u.usbpcap_header_len).isSome := rfl

theorem processRecord_none (raw : List Nat) :
    processRecord ⟨none, raw⟩ = .error .attributeError := rfl

theorem processRecord_some (u : USBLayer) (raw : List Nat) :
    processRecord ⟨some u, raw⟩ =
      if u.transfer_type == "0x00" && u.src == "host" then
        match parsePyInt u.usbpcap_header_len with
        | none => .error .valueError
        | some h => .ok (pySliceFrom h raw)
      else
        .ok [] := rfl

theorem specPayload_some (u : USBLayer) (raw : List Nat) :
    specPayload ⟨some u, raw⟩ =
      match parsePyInt u.usbpcap_header_len with
      | none => []
      | some h => pySliceFrom h raw := rfl

theorem runAux_nil (acc : List Nat) : runAux [] acc = (acc, none) := rfl

theorem runAux_cons (p : Packet) (rest : List Packet) (acc : List Nat) :
    runAux (p :: rest) acc =
      match processRecord p with
      | .error e => (acc, some e)
      | .ok payload => runAux rest (acc ++ payload) := rfl

theorem specOutput_nil : specOutput [] = [] := rfl

theorem specOutput_cons_pos (p : Packet) (ps : List Packet)
    (h : recordMatches p = true) :
    specOutput (p :: ps) = specPayload p ++ specOutput ps := by
  simp [specOutput, List.filter_cons, h]

theorem specOutput_cons_neg (p : Packet) (ps : List Packet)
    (h : recordMatches p = false) :
    specOutput (p :: ps) = specOutput ps := by
  simp [specOutput, List.filter_cons, h]

theorem specOutput_append (l1 l2 : List Packet) :
    specOutput (l1 ++ l2) = specOutput l1 ++ specOutput l2 := by
  simp [specOutput, List.filter_append]

/-- On a clean capture the loop runs to completion and writes exactly the
spec-side concatenation after whatever was already written. -/
theorem runAux_clean : ∀ (ps : List Packet) (acc : List Nat),
    cleanCapture ps = true → runAux ps acc = (acc ++ specOutput ps, none)
  | [], acc, _ => by simp [runAux_nil, specOutput_nil]
  | ⟨pu, raw⟩ :: rest, acc, h => by
    rw [cleanCapture, List.all_cons, Bool.and_eq_true] at h
    obtain ⟨hp, hrest⟩ := h
    rw [recordClean, Bool.and_eq_true] at hp
    obtain ⟨husb, hp2⟩ := hp
    cases pu with
    | none => exact Bool.noConfusion husb
    | some u =>
      by_cases hm : (u.transfer_type == "0x00" && u.src == "host") = true
      · have hmm : recordMatches ⟨some u, raw⟩ = true := by
          rw [recordMatches_some]; exact hm
        rw [Bool.or_eq_true] at hp2
        have hpar : (parsePyInt u.usbpcap_header_len).isSome = true := by
          rcases hp2 with h1 | h1
          · rw [hmm] at h1; exact Bool.noConfusion h1
          · rw [headerParses_some] at h1; exact h1
        obtain ⟨hl, hpl⟩ := Option.isSome_iff_exists.mp hpar
        simp only [runAux_cons, processRecord_some, if_pos hm, hpl]
        rw [runAux_clean rest (acc ++ pySliceFrom hl raw) hrest,
          specOutput_cons_pos _ _ hmm, specPayload_some, hpl]
        simp [List.append_assoc]
      · have hmm : recordMatches ⟨some u, raw⟩ = false := by
          rw [recordMatches_some]
          exact Bool.eq_false_iff.mpr hm
        simp only [runAux_cons, processRecord_some, if_neg hm]
        rw [List.append_nil, runAux_clean rest acc hrest,
          specOutput_cons_neg _ _ hmm]

/-- A capture with no matching record at all. -/
def noMatches (ps : List Packet) : Bool :=
  ps.all (fun p => !recordMatches p)

/-- If no record matches the filter, nothing is ever written: whether each
record is skipped by the filter or aborts the run with `AttributeError`, the
output stays at whatever was already written. -/
theorem runAux_fst_of_noMatches : ∀ (ps : List Packet) (acc : List Nat),
    noMatches ps = true → (runAux ps acc).1 = acc
  | [], _, _ => rfl
  | ⟨pu, raw⟩ :: rest, acc, h => by
    rw [noMatches, List.all_cons, Bool.and_eq_true] at h
    obtain ⟨hp, hrest⟩ := h
    cases pu with
    | none => simp [runAux_cons, processRecord_none]
    | some u =>
      have hm : (u.transfer_type == "0x00" && u.src == "host") = false := by
        have := hp
        rw [recordMatches_some] at this
        rwa [Bool.not_eq_eq_eq_not, Bool.not_true] at this
      simp only [runAux_cons, processRecord_some, if_neg (by rw [hm]; exact
        Bool.noConfusion : ¬(u.transfer_type == "0x00" && u.src == "host") = true),
        List.append_nil]
      exact runAux_fst_of_noMatches rest acc hrest

/-- **C1** (counterexample to the claim as stated, over *every* capture): on
the capture `[pNoUsb, pGood]` the unguarded `packet.usb` raises
`AttributeError` on the first record and aborts the run, so the output file
is empty, while the ordered concatenation over the records passing the
filter is `pGood`'s 2-byte payload. -/
theorem C1_counterexample :
    outputContents [pNoUsb, pGood] ≠ specOutput [pNoUsb, pGood] := by
  decide

/-- **C1** (amended): for every capture all of whose records expose the USB
layer and whose matching records carry an integer-parseable header-length
field, `run` completes without error and the output file's contents equal
the ordered concatenation, over every record passing the filter predicate
(`transfer_type == "0x00"` and `src == "host"`), of that record's raw frame
bytes sliced from the header length to the end. -/
theorem C1_clean_run_writes_spec_concatenation (ps : List Packet)
    (h : cleanCapture ps = true) :
    run ps = (specOutput ps, none) := by
  rw [run, runAux_clean ps [] h, List.nil_append]

/-- Witness for C1's amended theorem at the spec's 3-record scenario. -/
theorem C1_clean_run_writes_spec_concatenation_witness :
    cleanCapture [pScenario1, pScenario2, pScenario3] = true ∧
    run [pScenario1, pScenario2, pScenario3] =
      (specOutput [pScenario1, pScenario2, pScenario3], none) :=
  ⟨by decide, C1_clean_run_writes_spec_concatenation _ (by decide)⟩

/-- **C2** (counterexample): a record lacking the USB protocol view is not
skipped — `packet.usb` raises `AttributeError`, which aborts the run, and
the subsequent matching record `pGood` is never processed (the output stays
empty), refuting both "without raising an error" and "the run continues to
subsequent records". -/
theorem C2_counterexample :
    (run [pNoUsb, pGood]).2 = some PyErr.attributeError ∧
    outputContents [pNoUsb, pGood] = [] := by
  decide

/-- **C2** (amended): for every record lacking the USB protocol view, the
run aborts at that record with `AttributeError`; no further bytes are
written and subsequent records are not processed. -/
theorem C2_missing_usb_layer_aborts (p : Packet) (rest : List Packet)
    (acc : List Nat) (h : p.usb = none) :
    runAux (p :: rest) acc = (acc, some PyErr.attributeError) := by
  obtain ⟨pu, raw⟩ := p
  have h' : pu = none := h
  subst h'
  rw [runAux_cons, processRecord_none]

/-- Witness for C2's amended theorem on a concrete non-USB record. -/
theorem C2_missing_usb_layer_aborts_witness :
    pNoUsb.usb = none ∧
    runAux [pNoUsb, pGood] [] = ([], some PyErr.attributeError) :=
  ⟨rfl, C2_missing_usb_layer_aborts pNoUsb [pGood] [] rfl⟩

/-- **C3** (confirmed): for every matching record whose parsed header length
`h` is at least the raw frame length, the loop body computes an empty
payload and raises nothing — `processRecord` returns `.ok []`. -/
theorem C3_overlong_header_empty_payload (p : Packet) (u : USBLayer)
    (h : Int) (hu : p.usb = some u)
    (ht : u.transfer_type = "0x00") (hs : u.src = "host")
    (hparse : parsePyInt u.usbpcap_header_len = some h)
    (hlen : (p.rawPacket.length : Int) ≤ h) :
    processRecord p = .ok [] := by
  obtain ⟨pu, raw⟩ := p
  have hu' : pu = some u := hu
  subst hu'
  have hm : (u.transfer_type == "0x00" && u.src == "host") = true := by
    rw [ht, hs]; rfl
  simp only [processRecord_some, if_pos hm, hparse]
  have hraw : (raw.length : Int) ≤ h := hlen
  have h0 : ¬ h < 0 := by omega
  rw [pySliceFrom, if_neg h0]
  have hnil : raw.drop h.toNat = [] := List.drop_eq_nil_of_le (by omega)
  rw [hnil]

/-- Witness for C3 on a matching record with header length 9 and a 3-byte
frame. -/
theorem C3_overlong_header_empty_payload_witness :
    parsePyInt "9" = some 9 ∧ ((3 : Nat) : Int) ≤ 9 ∧
    processRecord pLongHeader = .ok [] :=
  ⟨by decide, by decide,
    C3_overlong_header_empty_payload pLongHeader _ 9 rfl rfl rfl
      (by decide) (by decide)⟩

/-- **C4** (confirmed): a record exposing the USB view but failing the
filter (`transfer_type ≠ "0x00"` or `src ≠ "host"`) contributes no bytes:
its loop iteration returns `.ok []` and leaves the output accumulator — and
the rest of the run — exactly as if the record were absent. -/
theorem C4_nonmatching_record_writes_nothing (p : Packet) (u : USBLayer)
    (rest : List Packet) (acc : List Nat) (hu : p.usb = some u)
    (hfail : u.transfer_type ≠ "0x00" ∨ u.src ≠ "host") :
    processRecord p = .ok [] ∧ runAux (p :: rest) acc = runAux rest acc := by
  obtain ⟨pu, raw⟩ := p
  have hu' : pu = some u := hu
  subst hu'
  have hb : ¬ (u.transfer_type == "0x00" && u.src == "host") = true := by
    intro hc
    rw [Bool.and_eq_true, beq_iff_eq, beq_iff_eq] at hc
    rcases hfail with hf | hf
    · exact hf hc.1
    · exact hf hc.2
  constructor
  · rw [processRecord_some, if_neg hb]
  · simp only [runAux_cons, processRecord_some, if_neg hb, List.append_nil]

/-- Witness for C4 on the scenario's first record (`transfer_type =
"0x01"`). -/
theorem C4_nonmatching_record_writes_nothing_witness :
    (("0x01" : String) ≠ "0x00" ∨ ("host" : String) ≠ "host") ∧
    (processRecord pScenario1 = .ok [] ∧
      runAux [pScenario1, pGood] [] = runAux [pGood] []) :=
  ⟨Or.inl (by decide),
    C4_nonmatching_record_writes_nothing pScenario1 _ [pGood] [] rfl
      (Or.inl (by decide))⟩

/-- **C5** (counterexample to "no record is omitted from the output except
by the filter predicate"): in `[pNoUsb, pGood]` the record `pGood` passes
the filter and has a nonempty payload, yet the output is empty — the run
aborted on the earlier non-USB record, omitting `pGood` for a reason other
than the filter. -/
theorem C5_counterexample :
    recordMatches pGood = true ∧ specPayload pGood ≠ [] ∧
    outputContents [pNoUsb, pGood] = [] := by
  decide

/-- **C5** (amended): on a capture the run completes without error (every
record exposes the USB view, every matching record's header length parses),
payloads appear in capture order: for matching records `A` yielded before
`B`, the output is the concatenation of the payloads of `pre`, then `A`,
then `mid`, then `B`, then `post` — so `A`'s payload appears entirely
before `B`'s, each matching record is written exactly once, and only
filtered-out records are omitted. -/
theorem C5_capture_order_is_write_order (pre mid post : List Packet)
    (A B : Packet)
    (hclean : cleanCapture (pre ++ A :: mid ++ B :: post) = true)
    (hA : recordMatches A = true) (hB : recordMatches B = true) :
    outputContents (pre ++ A :: mid ++ B :: post) =
      specOutput pre ++ (specPayload A ++ (specOutput mid ++
        (specPayload B ++ specOutput post))) := by
  rw [outputContents, run, runAux_clean _ [] hclean, List.nil_append]
  show specOutput (pre ++ A :: mid ++ B :: post) = _
  rw [specOutput_append, specOutput_append, specOutput_cons_pos _ _ hA,
    specOutput_cons_pos _ _ hB]
  simp [List.append_assoc]

/-- Witness for C5's amended theorem: `A = pScenario2` before
`B = pGood`, with a skipped record on either side. -/
theorem C5_capture_order_is_write_order_witness :
    (cleanCapture ([pScenario1] ++ pScenario2 :: [pScenario3] ++
        pGood :: []) = true ∧
      recordMatches pScenario2 = true ∧ recordMatches pGood = true) ∧
    outputContents ([pScenario1] ++ pScenario2 :: [pScenario3] ++
        pGood :: []) =
      specOutput [pScenario1] ++ (specPayload pScenario2 ++
        (specOutput [pScenario3] ++ (specPayload pGood ++
          specOutput []))) :=
  ⟨⟨by decide, by decide, by decide⟩,
    C5_capture_order_is_write_order [pScenario1] [pScenario3] []
      pScenario2 pGood (by decide) (by decide) (by decide)⟩

/-- **C6** (confirmed): on every capture with zero matching records the
output file exists (it is created and truncated by `open("out.raw", "wb")`
before the loop) and ends with zero bytes — whether each record is skipped
by the filter or the run aborts on a record without the USB layer, nothing
is ever written. -/
theorem C6_zero_matching_records_empty_output (ps : List Packet)
    (h : noMatches ps = true) :
    outputContents ps = [] :=
  runAux_fst_of_noMatches ps [] h

/-- Witness for C6 on a capture of two skipped records and one non-USB
record. -/
theorem C6_zero_matching_records_empty_output_witness :
    noMatches [pScenario1, pScenario3, pNoUsb] = true ∧
    outputContents [pScenario1, pScenario3, pNoUsb] = [] :=
  ⟨by decide,
    C6_zero_matching_records_empty_output [pScenario1, pScenario3, pNoUsb]
      (by decide)⟩

/-- **C7** (confirmed): the output is a deterministic function of the input
record sequence — the script reads no other state — so two runs over equal
record sequences (written to distinct output paths) produce byte-identical
outputs and identical error outcomes. -/
theorem C7_deterministic_runs (ps1 ps2 : List Packet) (h : ps1 = ps2) :
    run ps1 = run ps2 := by
  rw [h]

/-- Witness for C7: two runs over the same one-record capture agree. -/
theorem C7_deterministic_runs_witness :
    [pGood] = [pGood] ∧ run [pGood] = run [pGood] :=
  ⟨rfl, C7_deterministic_runs [pGood] [pGood] rfl⟩

/-- **C8** (confirmed): the spec's 3-record scenario — record 1 skipped by
`transfer_type = "0x01"`, record 2 matching with `headerLen = 4` and an
8-byte frame, record 3 skipped by `src = "device"` — yields exactly 4 output
bytes, equal to bytes 4 through 8 of record 2's raw frame, and the run
completes without error. -/
theorem C8_three_record_scenario :
    run [pScenario1, pScenario2, pScenario3] = ([14, 15, 16, 17], none) ∧
    outputContents [pScenario1, pScenario2, pScenario3] =
      pScenario2.rawPacket.drop 4 ∧
    (outputContents [pScenario1, pScenario2, pScenario3]).length = 4 := by
  decide

/-- **C9** (confirmed): a matching record whose `usbpcap_header_len` field
`int(...)` cannot parse aborts the run with an uncaught `ValueError` — the
record is not skipped, nothing more is written, and later records are never
reached. -/
theorem C9_unparseable_header_aborts_run (p : Packet) (u : USBLayer)
    (rest : List Packet) (acc : List Nat)
    (hu : p.usb = some u) (ht : u.transfer_type = "0x00")
    (hs : u.src = "host")
    (hparse : parsePyInt u.usbpcap_header_len = none) :
    runAux (p :: rest) acc = (acc, some PyErr.valueError) := by
  obtain ⟨pu, raw⟩ := p
  have hu' : pu = some u := hu
  subst hu'
  have hm : (u.transfer_type == "0x00" && u.src == "host") = true := by
    rw [ht, hs]; rfl
  simp only [runAux_cons, processRecord_some, if_pos hm, hparse]

/-- Witness for C9: a matching record with hex-formatted header length
`"0x1b"` aborts a run that had a later matching record. -/
theorem C9_unparseable_header_aborts_run_witness :
    parsePyInt "0x1b" = none ∧
    runAux [pBadHeader, pGood] [] = ([], some PyErr.valueError) :=
  ⟨by decide,
    C9_unparseable_header_aborts_run pBadHeader _ [pGood] [] rfl rfl rfl
      (by decide)⟩

/-- **C10** (counterexample to "for negative `header_len` the written
payload is the last `|header_len|` bytes of the frame"): on a matching
record with header field `"-5"` and a 3-byte frame, Python's `raw[-5:]`
clamps and the whole 3-byte frame is written — not 5 bytes. -/
theorem C10_counterexample :
    processRecord pNegHeader = .ok [1, 2, 3] ∧
    parsePyInt "-5" = some (-5) ∧
    pNegHeader.rawPacket = [1, 2, 3] ∧
    ([1, 2, 3] : List Nat).length ≠ Int.natAbs (-5) :=
  ⟨rfl, by decide, rfl, by decide⟩

/-- **C10** (amended): for every matching record and every parsed integer
header length `h` (negative values included), the written payload is a
contiguous suffix of the record's raw frame; for negative `h` it is the
last `min |h| len(raw)` bytes of the frame. -/
theorem C10_payload_is_suffix (p : Packet) (u : USBLayer) (h : Int)
    (hu : p.usb = some u) (ht : u.transfer_type = "0x00")
    (hs : u.src = "host")
    (hparse : parsePyInt u.usbpcap_header_len = some h) :
    processRecord p = .ok (pySliceFrom h p.rawPacket) ∧
    pySliceFrom h p.rawPacket <:+ p.rawPacket ∧
    (h < 0 → (pySliceFrom h p.rawPacket).length =
      min h.natAbs p.rawPacket.length) := by
  obtain ⟨pu, raw⟩ := p
  have hu' : pu = some u := hu
  subst hu'
  have hm : (u.transfer_type == "0x00" && u.src == "host") = true := by
    rw [ht, hs]; rfl
  refine ⟨?_, ?_, ?_⟩
  · rw [processRecord_some, if_pos hm, hparse]
  · rw [pySliceFrom]
    exact List.drop_suffix _ _
  · intro hneg
    rw [pySliceFrom, if_pos hneg, List.length_drop]
    omega

/-- Witness for C10's amended theorem at the negative header record. -/
theorem C10_payload_is_suffix_witness :
    parsePyInt "-5" = some (-5) ∧
    (processRecord pNegHeader = .ok (pySliceFrom (-5) pNegHeader.rawPacket) ∧
      pySliceFrom (-5) pNegHeader.rawPacket <:+ pNegHeader.rawPacket ∧
      ((-5 : Int) < 0 → (pySliceFrom (-5) pNegHeader.rawPacket).length =
        min (Int.natAbs (-5)) pNegHeader.rawPacket.length)) :=
  ⟨by decide,
    C10_payload_is_suffix pNegHeader _ (-5) rfl rfl rfl (by decide)⟩

end Reconstruct
